import Mathlib

/-!
Verification of the fprintd device-session daemon and its PAM client module.

The definitions below are shallow embeddings of the C sources:
  * `Fprintd.Device`  — src/src/device.c   (claim / release / verify / enroll
    state machine of one `FprintDevice`)
  * `Fprintd.Storage` — src/src/file_storage.c
  * `Fprintd.Pam`     — src/pam/pam_fprintd.c (the AuthClient side)
  * `Fprintd.Race`    — the threaded password-vs-fingerprint race of
    src/pam/pam_fprintd.c, modelled as an interleaving of atomic steps

Each theorem at the end of the file settles one claim of the specification.
-/

namespace Fprintd

namespace Device

/-- Retry error codes of the `FP_DEVICE_RETRY` domain (libfprint interface). -/
inductive RetryCode
  | tooShort
  | centerFinger
  | removeFinger
  | retryOther
deriving DecidableEq, Repr

/-- Errors a capture operation can complete with, as classified by
`verify_result_to_name` / `enroll_result_to_name` in device.c: the
`FP_DEVICE_RETRY` domain, the `FP_DEVICE_ERROR` domain (`PROTO`,
`DATA_FULL`, anything else) and `G_IO_ERROR_CANCELLED`. -/
inductive FpError
  | retry (c : RetryCode)
  | proto
  | dataFull
  | devOther
  | cancelled
deriving DecidableEq, Repr

/-- Whether an error belongs to the `FP_DEVICE_RETRY` domain
(`error->domain == FP_DEVICE_RETRY` in device.c). -/
def FpError.isRetry : FpError → Bool
  | .retry _ => true
  | _ => false

/-- Whether an optional error is in the retry domain. -/
def errIsRetry : Option FpError → Bool
  | some e => e.isRetry
  | none => false

/-- Translation of `verify_result_to_name` (device.c:394-426). -/
def verifyResultToName (isMatch : Bool) (error : Option FpError) : String :=
  match error with
  | none => if isMatch then "verify-match" else "verify-no-match"
  | some e =>
    match e with
    | .retry .tooShort => "verify-swipe-too-short"
    | .retry .centerFinger => "verify-finger-not-centered"
    | .retry .removeFinger => "verify-remove-and-retry"
    | .retry .retryOther => "verify-retry-scan"
    | .proto => "verify-disconnected"
    | .cancelled => "verify-no-match"
    | .dataFull => "verify-unknown-error"
    | .devOther => "verify-unknown-error"

/-- Translation of `enroll_result_to_name` (device.c:428-464). -/
def enrollResultToName (completed enrolled : Bool) (error : Option FpError) : String :=
  match error with
  | none =>
    if !completed then "enroll-stage-passed"
    else if enrolled then "enroll-completed"
    else "enroll-failed"
  | some e =>
    match e with
    | .retry .tooShort => "enroll-swipe-too-short"
    | .retry .centerFinger => "enroll-finger-not-centered"
    | .retry .removeFinger => "enroll-remove-and-retry"
    | .retry .retryOther => "enroll-retry-scan"
    | .proto => "enroll-disconnected"
    | .dataFull => "enroll-data-full"
    | .cancelled => "enroll-failed"
    | .devOther => "enroll-unknown-error"

/-- A `VerifyStatus` style signal emission: result string and done flag. -/
structure Emission where
  result : String
  done : Bool
deriving DecidableEq, Repr

/-- Result of one call to `report_verify_status`: the new value of the
session flag `verify_status_reported`, the signal emitted (if any), and
whether a warning was logged. -/
structure ReportOut where
  reported : Bool
  emission : Option Emission
  warned : Bool
deriving DecidableEq, Repr

/-- Translation of `report_verify_status` (device.c:868-894).  `reported`
is the session field `verify_status_reported` on entry. -/
def reportVerifyStatus (reported : Bool) (isMatch : Bool) (error : Option FpError) :
    ReportOut :=
  let result := verifyResultToName isMatch error
  let done := error.isNone || !(errIsRetry error)
  if done && reported then
    -- It is completely fine for cancellation to occur after a result has
    -- been reported (no warning in that case); nothing is emitted.
    { reported := reported
      emission := none
      warned := !(error = some .cancelled) }
  else
    { reported := reported || done
      emission := some ⟨result, done⟩
      warned := false }

/-- One capture progress report delivered to `report_verify_status`
within a verify cycle: the match flag and the optional error. -/
structure ReportCall where
  isMatch : Bool
  error : Option FpError
deriving DecidableEq, Repr

/-- Whether a report call is terminal, i.e. carries `done = true`
(no error, or an error outside the retry domain). -/
def ReportCall.terminal (c : ReportCall) : Bool :=
  c.error.isNone || !(errIsRetry c.error)

/-- Folding a sequence of report calls through `report_verify_status`,
starting from a given `verify_status_reported` flag; returns the final
flag and the number of emissions that carried `done = true`. -/
def reportRun (reported : Bool) : List ReportCall → Bool × Nat
  | [] => (reported, 0)
  | c :: rest =>
    let out := reportVerifyStatus reported c.isMatch c.error
    let (fin, n) := reportRun out.reported rest
    (fin, (match out.emission with
           | some e => if e.done then 1 else 0
           | none => 0) + n)

/-- Session data as claimed by one client (`SessionData` in device.c):
the D-Bus sender, the resolved username, whether a method invocation is
currently attached, and the `verify_status_reported` flag. -/
structure SessionData where
  sender : String
  username : String
  hasInvocation : Bool
  verifyStatusReported : Bool
deriving DecidableEq, Repr

/-- The per-device action (`FprintDeviceAction` in device.c). -/
inductive Action
  | none
  | identify
  | verify
  | enroll
  | «open»
  | close
deriving DecidableEq, Repr

/-- Error codes of the fprintd D-Bus error domain used by the handlers. -/
inductive FprintErr
  | alreadyInUse
  | claimDevice
  | permissionDenied
  | noEnrolledPrints
  | noActionInProgress
  | invalidFingername
  | internal
deriving DecidableEq, Repr

/-- Requested claim state for `_fprint_device_check_claimed`. -/
inductive ClaimReq
  | claimed
  | unclaimed
  | ignored
deriving DecidableEq, Repr

/-- The part of `FprintDevicePrivate` relevant to the claim life cycle. -/
structure ClaimState where
  session : Option SessionData
  currentAction : Action
deriving DecidableEq, Repr

/-- Translation of `_fprint_device_check_claimed` (device.c:466-512):
returns the boolean result and the error set (the C function can set an
error while still returning TRUE when the sender matches but an
invocation is pending). -/
def checkClaimed (st : ClaimState) (sender : String) (req : ClaimReq) :
    Bool × Option FprintErr :=
  match req with
  | .ignored => (true, none)
  | .unclaimed =>
    match st.session with
    | none => (true, none)
    | some _ => (false, some .alreadyInUse)
  | .claimed =>
    match st.session with
    | none => (false, some .claimDevice)
    | some s =>
      let retval := sender = s.sender
      if !retval || s.hasInvocation then (retval, some .alreadyInUse)
      else (retval, none)

/-- Translation of the body of `fprint_device_claim` (device.c:770-802)
after the username has been authorized: on success the session is
installed (with the pending invocation attached) and the asynchronous
`fp_device_open` is started with `current_action = ACTION_OPEN`; the
D-Bus reply is produced later by `dev_open_cb`.  Returns the new state
and the immediate error reply, if any. -/
def claim (st : ClaimState) (sender user : String) : ClaimState × Option FprintErr :=
  if !(checkClaimed st sender .unclaimed).1 then
    (st, (checkClaimed st sender .unclaimed).2)
  else
    ({ session := some { sender := sender
                         username := user
                         hasInvocation := true
                         verifyStatusReported := false }
       currentAction := .open }, none)

/-- Translation of `dev_open_cb` (device.c:707-734): the invocation is
stolen from the session, the action returns to `None`, and on failure
the session is torn down with an `Internal` error reply. -/
def devOpenCb (st : ClaimState) (openOk : Bool) : ClaimState × Option FprintErr :=
  let st := { st with
              session := st.session.map (fun s => { s with hasInvocation := false })
              currentAction := Action.none }
  if !openOk then
    ({ st with session := none }, some .internal)
  else
    (st, none)

/-- The parts of `FprintDevicePrivate` (together with the session) that
drive a running verify / identify / enroll operation: the data kept to
restart the operation on a retry failure, the cancellation token with
its cancelled flag, and the pending `VerifyStop`/`EnrollStop`
invocation.  Prints and tokens are identified by natural numbers. -/
structure DevState where
  session : Option SessionData
  currentAction : Action
  verifyData : Option Nat
  identifyData : Option (List Nat)
  enrollData : Nat
  currentCancellable : Option Nat
  cancelled : Bool
  hasCancelInvocation : Bool
deriving DecidableEq, Repr

/-- The `verify_status_reported` flag of the current session (false when
no session exists). -/
def DevState.sessionReported (st : DevState) : Bool :=
  match st.session with
  | some s => s.verifyStatusReported
  | none => false

/-- Updates the `verify_status_reported` flag of the current session. -/
def DevState.setReported (st : DevState) (b : Bool) : DevState :=
  { st with session := st.session.map (fun s => { s with verifyStatusReported := b }) }

/-- An asynchronous libfprint operation dispatched by the session, with
the arguments it was started (or restarted) with. -/
inductive DevCall
  | verify (print : Option Nat) (tok : Option Nat)
  | identify (gallery : Option (List Nat)) (tok : Option Nat)
  | enroll (finger : Nat) (tok : Option Nat)
deriving DecidableEq, Repr

/-- Result of running one completion callback: the new device state, the
operation restarted (if any), the `report_verify_status` outcome (if the
callback reported), the `EnrollStatus` emission (if any), whether a
warning was logged and whether a pending Stop invocation was answered. -/
structure CbOut where
  state : DevState
  restart : Option DevCall
  report : Option ReportOut
  enrollEmission : Option Emission
  warned : Bool
  completedStop : Bool
deriving DecidableEq, Repr

/-- Translation of `match_cb` (device.c:896-915): the match is
discounted when the token was already cancelled, and the result is
forwarded to `report_verify_status`. -/
def matchCb (st : DevState) (matchFound : Bool) (error : Option FpError) : ReportOut :=
  let isCancelled := st.cancelled
  let matched := matchFound && !isCancelled
  reportVerifyStatus st.sessionReported matched error

/-- Translation of `verify_cb` (device.c:917-969).  `error` is the
completion error of `fp_device_verify_finish`. -/
def verifyCb (st : DevState) (error : Option FpError) : CbOut :=
  if errIsRetry error then
    -- Automatically restart the operation for retry failures,
    -- with the stored template and the same cancellable.
    { state := st
      restart := some (.verify st.verifyData st.currentCancellable)
      report := none
      enrollEmission := none
      warned := false
      completedStop := false }
  else
    let st1 := { st with verifyData := none }
    let rep := match error with
      | some e => some (reportVerifyStatus st1.sessionReported false (some e))
      | none => none
    let st2 := match rep with
      | some r => st1.setReported r.reported
      | none => st1
    let warned := match error with
      | some e => !(e = .cancelled)
      | none => false
    -- Return the cancellation or reset action right away if vanished.
    if st2.hasCancelInvocation then
      { state := { (st2.setReported false) with
                   hasCancelInvocation := false
                   currentAction := Action.none
                   currentCancellable := none }
        restart := none
        report := rep
        enrollEmission := none
        warned := warned
        completedStop := true }
    else if st2.cancelled then
      { state := { (st2.setReported false) with
                   currentAction := Action.none
                   currentCancellable := none }
        restart := none
        report := rep
        enrollEmission := none
        warned := warned
        completedStop := false }
    else
      { state := { st2 with currentCancellable := none }
        restart := none
        report := rep
        enrollEmission := none
        warned := warned
        completedStop := false }

/-- Translation of `identify_cb` (device.c:971-1021).  Unlike
`verify_cb`, answering a pending `VerifyStop` does not reset the
`verify_status_reported` flag here. -/
def identifyCb (st : DevState) (error : Option FpError) : CbOut :=
  if errIsRetry error then
    { state := st
      restart := some (.identify st.identifyData st.currentCancellable)
      report := none
      enrollEmission := none
      warned := false
      completedStop := false }
  else
    let st1 := { st with identifyData := none }
    let rep := match error with
      | some e => some (reportVerifyStatus st1.sessionReported false (some e))
      | none => none
    let st2 := match rep with
      | some r => st1.setReported r.reported
      | none => st1
    let warned := match error with
      | some e => !(e = .cancelled)
      | none => false
    if st2.hasCancelInvocation then
      { state := { st2 with
                   hasCancelInvocation := false
                   currentAction := Action.none
                   currentCancellable := none }
        restart := none
        report := rep
        enrollEmission := none
        warned := warned
        completedStop := true }
    else if st2.cancelled then
      { state := { (st2.setReported false) with
                   currentAction := Action.none
                   currentCancellable := none }
        restart := none
        report := rep
        enrollEmission := none
        warned := warned
        completedStop := false }
    else
      { state := { st2 with currentCancellable := none }
        restart := none
        report := rep
        enrollEmission := none
        warned := warned
        completedStop := false }

/-- One per-user entry of the print store: the username together with
the enrolled finger codes and the print each loads to (`none` when
`print_data_load` fails for that finger). -/
structure StoreEntry where
  username : String
  fingers : List (Nat × Option Nat)
deriving DecidableEq, Repr

/-- The per-user inner loop of `try_delete_print` (device.c:1204-1232).
The C loop iterates once per discovered finger of the user, but loads
the print of `fingers->data` — the head of the list — on every
iteration (rather than the loop variable `finger->data`), and removes
the first equal print from the device list if one is found. -/
def filterUserPrints (devicePrints : List Nat) (fingers : List (Nat × Option Nat)) :
    List Nat :=
  match fingers with
  | [] => devicePrints
  | f0 :: _ =>
    fingers.foldl
      (fun acc _f =>
        match f0.2 with
        | none => acc
        | some p => if p ∈ acc then acc.erase p else acc)
      devicePrints

/-- Translation of `try_delete_print` (device.c:1187-1253): the on-device
prints are filtered by every discovered user, and the first remaining
print is deleted.  Returns whether a print was garbage collected and
the resulting on-device print list. -/
def tryDeletePrint (devicePrints : List Nat) (store : List StoreEntry) :
    Bool × List Nat :=
  let remaining := store.foldl (fun acc entry => filterUserPrints acc entry.fingers)
    devicePrints
  match remaining with
  | [] => (false, devicePrints)
  | p :: _ => (true, devicePrints.erase p)

/-- Modelled from the spec: the set of on-device prints referenced by
some known (user, finger) pairing of the print store. -/
def referencedPrints (store : List StoreEntry) : List Nat :=
  store.foldl (fun acc entry => acc ++ entry.fingers.filterMap (fun f => f.2)) []

/-- Modelled from the spec: garbage collection as the specification
describes it — delete one template present on-device but not referenced
by any known user/finger pairing, if one exists. -/
def specTryDeletePrint (devicePrints : List Nat) (store : List StoreEntry) :
    Bool × List Nat :=
  match devicePrints.filter (fun p => !(p ∈ referencedPrints store)) with
  | [] => (false, devicePrints)
  | p :: _ => (true, devicePrints.erase p)

/-- Translation of `enroll_cb` (device.c:1282-1340).  `print` is the
result of `fp_device_enroll_finish`, `saveOk` whether
`store.print_data_save` succeeds, `devicePrints`/`store` feed the
garbage collection on a `DATA_FULL` error. -/
def enrollCb (st : DevState) (print : Option Nat) (error : Option FpError)
    (saveOk : Bool) (devicePrints : List Nat) (store : List StoreEntry) : CbOut :=
  if error = some .dataFull && (tryDeletePrint devicePrints store).1 then
    -- Success?  Then restart the operation (same finger, same token).
    { state := st
      restart := some (.enroll st.enrollData st.currentCancellable)
      report := none
      enrollEmission := none
      warned := false
      completedStop := false }
  else
    let name := enrollResultToName true print.isSome error
    let name := match print with
      | some _ => if !saveOk then "enroll-failed" else name
      | none => name
    let warned := match error with
      | some e => !(e = .cancelled)
      | none => false
    if st.hasCancelInvocation then
      { state := { st with
                   hasCancelInvocation := false
                   currentAction := Action.none
                   currentCancellable := none }
        restart := none
        report := none
        enrollEmission := some ⟨name, true⟩
        warned := warned
        completedStop := true }
    else if st.cancelled then
      { state := { st with currentAction := Action.none, currentCancellable := none }
        restart := none
        report := none
        enrollEmission := some ⟨name, true⟩
        warned := warned
        completedStop := false }
    else
      { state := { st with currentCancellable := none }
        restart := none
        report := none
        enrollEmission := some ⟨name, true⟩
        warned := warned
        completedStop := false }

/-- Events observable while `Release` is being handled. -/
inductive Ev
  | cancelIssued
  | cbRan
  | actionSettled
  | closeStarted
  | closeFinished
  | releaseAnswered
  | releaseErrored
deriving DecidableEq, Repr

/-- The `g_main_context_iteration` pumping of `fprint_device_release`:
the cancelled in-flight operation completes with `G_IO_ERROR_CANCELLED`
and its completion callback runs, returning the action to `None`. -/
def runPendingCb (st : DevState) : DevState × List Ev :=
  match st.currentAction with
  | .verify => ((verifyCb st (some .cancelled)).state, [.cbRan])
  | .identify => ((identifyCb st (some .cancelled)).state, [.cbRan])
  | .enroll => ((enrollCb st none (some .cancelled) true [] []).state, [.cbRan])
  | _ => (st, [])

/-- Translation of `_fprint_device_check_claimed` over the full device
state (device.c:466-512). -/
def checkClaimedD (st : DevState) (sender : String) (req : ClaimReq) :
    Bool × Option FprintErr :=
  checkClaimed { session := st.session, currentAction := st.currentAction } sender req

/-- Translation of `dev_close_cb` (device.c:804-831): the session is
cleared, the action returns to `None`, and the pending `Release`
invocation is answered (with an `Internal` error if the close failed). -/
def devCloseCb (st : DevState) (closeOk : Bool) : DevState × List Ev :=
  let st1 := { st with session := none, currentAction := Action.none }
  if !closeOk then (st1, [.closeFinished, .releaseErrored])
  else (st1, [.closeFinished, .releaseAnswered])

/-- Translation of `fprint_device_release` (device.c:833-866): after the
claim check, a live cancellable is cancelled and the main loop is pumped
until the action has settled; only then is the asynchronous close
started, whose completion answers the invocation. -/
def release (st : DevState) (sender : String) (closeOk : Bool) :
    DevState × List Ev × Option FprintErr :=
  if !(checkClaimedD st sender .claimed).1 then
    (st, [], (checkClaimedD st sender .claimed).2)
  else
    let (st1, evs1) :=
      match st.currentCancellable with
      | some _ =>
        let stc := { st with cancelled := true }
        let (st2, evs) := runPendingCb stc
        (st2, [Ev.cancelIssued] ++ evs ++ [Ev.actionSettled])
      | none => (st, [])
    let st3 := { st1 with
                 session := st1.session.map (fun s => { s with hasInvocation := true })
                 currentAction := Action.close }
    let (st4, evs2) := devCloseCb st3 closeOk
    (st4, evs1 ++ [Ev.closeStarted] ++ evs2, none)

end Device

namespace Storage

/-- A path in the print store, as built by `__get_path_to_print`
(file_storage.c:64-77): base store (storage root plus username), driver,
device id and the finger code in hex. -/
structure PrintPath where
  base : List String
  driver : String
  deviceId : String
  fingerHex : String
deriving DecidableEq, Repr

/-- Translation of `file_storage_get_basestore_for_username`
(file_storage.c:95-98). -/
def basestoreForUsername (storageRoot username : String) : List String :=
  [storageRoot, username]

/-- Translation of `__get_path_to_print` (file_storage.c:64-77). -/
def getPathToPrint (driver deviceId : String) (finger : Nat) (base : List String) :
    PrintPath :=
  { base := base
    driver := driver
    deviceId := deviceId
    fingerHex := String.mk (Nat.toDigits 16 finger) }

/-- A file system restricted to print files: the list of paths that
currently exist. -/
abbrev Fs := List PrintPath

/-- Translation of `g_unlink`: removes the path if it exists and returns
0, otherwise fails returning -1 (with `errno = ENOENT`). -/
def gUnlink (fs : Fs) (p : PrintPath) : Fs × Int :=
  if p ∈ fs then (fs.erase p, 0) else (fs, -1)

/-- Translation of `file_storage_print_data_delete` (file_storage.c:197-213):
the path is unlinked, the result of that unlink is only logged, and the
function returns the result of a second `g_unlink` of the same path. -/
def printDataDelete (fs : Fs) (driver deviceId : String) (finger : Nat)
    (storageRoot username : String) : Fs × Int :=
  let base := basestoreForUsername storageRoot username
  let path := getPathToPrint driver deviceId finger base
  let (fs1, _r) := gUnlink fs path
  gUnlink fs1 path

end Storage

namespace Pam

/-- PAM result codes used by pam_fprintd.c. -/
inductive PamRet
  | success
  | authErr
  | unavail
  | maxtries
  | incomplete
  | systemErr
deriving DecidableEq, Repr

/-- A `VerifyStatus` signal as decoded by `verify_result`
(pam_fprintd.c:227-284): result string plus done flag. -/
structure VSignal where
  result : String
  done : Bool
deriving DecidableEq, Repr

/-- The result string stored by the `verify_result` handler: signals
with `done = false` only produce an informational prompt and leave
`data->result` unset, so the inner wait keeps polling; the first signal
with `done = true` sets `data->result` and ends the wait. -/
def firstDone : List VSignal → Option String
  | [] => none
  | s :: rest => if s.done then some s.result else firstDone rest

/-- How one pass of the `while (data->max_tries > 0)` loop of
`do_verify` (pam_fprintd.c:484-657) concludes: the deadline passed, the
password thread set `stop_got_pw`, a handler set `verify_ret`, or the
listed `VerifyStatus` signals arrived. -/
inductive IterInput
  | timeout
  | gotPw
  | verifyRet (r : PamRet)
  | signals (sigs : List VSignal)
deriving DecidableEq, Repr

/-- Translation of the `do_verify` attempt loop (pam_fprintd.c:484-662)
in threaded mode (`no_pthread = false`, `no_need_enter = false`): the
fuel is `data->max_tries`.  Returns `none` when the input list does not
describe enough completed passes. -/
def doVerifyLoop : Nat → List IterInput → Option PamRet
  | 0, _ => some .maxtries
  | Nat.succ _, [] => none
  | Nat.succ n, it :: rest =>
    match it with
    | .verifyRet r => some r
    | .timeout => some .unavail
    | .gotPw => some .unavail
    | .signals sigs =>
      match firstDone sigs with
      | none => none
      | some res =>
        if res = "verify-match" then some .success
        else if res = "verify-no-match" then doVerifyLoop n rest
        else if res = "verify-unknown-error" then some .unavail
        else if res = "verify-disconnected" then some .unavail
        else some .authErr

/-- The device-selection loop of `open_device` (pam_fprintd.c:169-185):
`maxPrints` starts at 0 and a device is recorded only when its enrolled
print count strictly exceeds the running maximum.  `idx` is the index of
the next device in enumeration order. -/
def openDeviceLoop : List Nat → Nat → Option Nat → Nat → Option Nat
  | [], _, path, _ => path
  | c :: rest, maxPrints, path, idx =>
    if c > maxPrints then openDeviceLoop rest c (some idx) (idx + 1)
    else openDeviceLoop rest maxPrints path (idx + 1)

/-- Translation of `open_device` (pam_fprintd.c:133-193), abstracting a
device to its enrolled-print count for the requesting user; the result
is the index of the selected device. -/
def openDevice (counts : List Nat) : Option Nat :=
  openDeviceLoop counts 0 none 0

/-- Modelled from the spec: discovery selects the device with the most
enrolled templates, ties broken by enumeration order — the earliest
index attaining the maximum, for any non-empty device list. -/
def specSelectLoop : List Nat → Nat → Nat → Nat → Nat
  | [], best, _, _ => best
  | c :: rest, best, bestVal, idx =>
    if c > bestVal then specSelectLoop rest idx c (idx + 1)
    else specSelectLoop rest best bestVal (idx + 1)

/-- Modelled from the spec: earliest index of the maximal count. -/
def specSelect : List Nat → Option Nat
  | [] => none
  | c :: rest => some (specSelectLoop rest 0 c 1)

/-- Prefix test translated from `str_has_prefix`
(pam_fprintd.c:93-99, a `strncmp` against the whole pattern). -/
def listIsPre : List Char → List Char → Bool
  | [], _ => true
  | _ :: _, [] => false
  | p :: ps, c :: cs => p = c && listIsPre ps cs

/-- Digit-run accumulator of C `atoi`: consumes leading decimal digits
and stops at the first non-digit. -/
def digitsToNat : List Char → Nat → Nat
  | [], acc => acc
  | c :: rest, acc =>
    if c.isDigit then digitsToNat rest (acc * 10 + (c.toNat - 48)) else acc

/-- C `atoi` on a token (optional sign, then leading digits). -/
def atoiChars : List Char → Int
  | '-' :: rest => -(digitsToNat rest 0 : Int)
  | '+' :: rest => (digitsToNat rest 0 : Int)
  | cs => (digitsToNat cs 0 : Int)

/-- `UINT_MAX`, the sentinel for an unlimited timeout
(`timeout != UINT_MAX` gates the deadline in `do_verify`). -/
def uintMax : Nat := 4294967295

/-- `DEFAULT_TIMEOUT` (pam_fprintd.c:57). -/
def defaultTimeout : Nat := 30

/-- The characters of the option pattern `TIMEOUT_MATCH` ("timeout="). -/
def timeoutPat : List Char := ['t', 'i', 'm', 'e', 'o', 'u', 't', '=']

/-- Translation of the `timeout=` branch of `pam_sm_authenticate`
(pam_fprintd.c:1338-1353): the branch is entered only when the token
starts with `timeout=` and is at most two characters longer than the
pattern; a negative value maps to `UINT_MAX`, and any effective value
below `MIN_TIMEOUT = 10` is raised to 10.  Tokens that fail the guard
leave the current timeout unchanged. -/
def applyTimeoutArg (arg : List Char) (cur : Nat) : Nat :=
  if listIsPre timeoutPat arg = true ∧ arg.length ≤ timeoutPat.length + 2 then
    let optTimeout := atoiChars (arg.drop timeoutPat.length)
    let t : Nat := if optTimeout < 0 then uintMax else optTimeout.toNat
    if t < 10 then 10 else t
  else cur

/-- Decimal character representation of an integer (used to write the
claim `timeout=N` for an arbitrary integer N). -/
def intToChars (n : Int) : List Char :=
  if n < 0 then '-' :: Nat.toDigits 10 n.natAbs else Nat.toDigits 10 n.toNat

/-- Modelled from the spec: the effective timeout the claim predicts for
`timeout=N` — unlimited for negative N, 10 for N below the floor, N
otherwise. -/
def specTimeout (n : Int) : Nat :=
  if n < 0 then uintMax else if n < 10 then 10 else n.toNat

end Pam

namespace Race

/-- Environment of one threaded authentication attempt
(pam_fprintd.c, `do_auth` with `no_pthread = false`,
`no_need_enter = false`, device claimed): whether the device would
report a match, whether `pam_prompt` returns `PAM_SUCCESS` with a
non-NULL password, and whether that password is non-empty. -/
structure Params where
  fpWouldMatch : Bool
  promptOk : Bool
  pwNonEmpty : Bool
deriving DecidableEq, Repr

/-- Shared and thread-local state of the race between the fingerprint
thread (`do_verify` continued by the tail of `do_auth`) and the password
prompt thread (`prompt_pw`).  `fpSuccess`, `fpFinished` and `stopGotPw`
are the shared flags of pam_fprintd.c:210/402-403; `authtokPw` records
that `prompt_pw` stored the typed password in `PAM_AUTHTOK`,
`authtokDummy` that the main thread stored the dummy token.
`obsSuccess` and `submitted` are history variables: the prompt thread
observed `fingerprint_success` at one of its two guarded checks, resp.
reached the final password-submission store.  Program counters advance
through the atomic steps of each thread; `mainPc = 5` and `pwPc = 6`
mean the thread has finished. -/
structure RState where
  mainPc : Nat
  pwPc : Nat
  matchReceived : Bool
  fpSuccess : Bool
  fpFinished : Bool
  stopGotPw : Bool
  authtokPw : Bool
  authtokDummy : Bool
  obsSuccess : Bool
  submitted : Bool
  fpRet : Option Pam.PamRet
  retVar : Option Pam.PamRet
  finalRet : Option Pam.PamRet
deriving DecidableEq, Repr

/-- The initial state: both threads at their first step, all flags
clear. -/
def init : RState :=
  { mainPc := 0
    pwPc := 0
    matchReceived := false
    fpSuccess := false
    fpFinished := false
    stopGotPw := false
    authtokPw := false
    authtokDummy := false
    obsSuccess := false
    submitted := false
    fpRet := none
    retVar := none
    finalRet := none }

/-- One atomic step of the fingerprint/main thread.
Step 0 is one pass of the `do_verify` wait loop: a received match ends
the loop with `fingerprint_success := true` under the mutex and
`PAM_SUCCESS` (pam_fprintd.c:608-617 — the match branch is examined
before the `stop_got_pw` abort at line 632); otherwise a posted
`stop_got_pw` aborts the attempt with `PAM_AUTHINFO_UNAVAIL`.
Step 1 sets `fingerprint_finished` under the mutex (lines 1186-1188).
Step 2 is the post-verify reconciliation (lines 1192-1212).
Step 3 is `pthread_join` (line 1220), enabled once the prompt thread is
done.  Step 4 is the final `stop_got_pw` check (lines 1225-1237). -/
def mainStep (p : Params) (s : RState) : RState :=
  if s.mainPc = 0 then
    if s.matchReceived then
      { s with fpSuccess := true, fpRet := some .success, mainPc := 1 }
    else if s.stopGotPw then
      { s with fpRet := some .unavail, mainPc := 1 }
    else s
  else if s.mainPc = 1 then
    { s with fpFinished := true, mainPc := 2 }
  else if s.mainPc = 2 then
    if s.stopGotPw then
      { s with retVar := some (if p.promptOk then .success else .authErr), mainPc := 3 }
    else if s.fpRet = some .success then
      { s with authtokDummy := true, retVar := s.fpRet, mainPc := 3 }
    else
      { s with retVar := s.fpRet, mainPc := 3 }
  else if s.mainPc = 3 then
    if s.pwPc = 6 then { s with mainPc := 4 } else s
  else if s.mainPc = 4 then
    if s.stopGotPw then
      { s with retVar := some (if p.promptOk then .unavail else .authErr)
               finalRet := some (if p.promptOk then .unavail else .authErr)
               mainPc := 5 }
    else
      { s with finalRet := s.retVar, mainPc := 5 }
  else s

/-- One atomic step of the password prompt thread (`prompt_pw`,
pam_fprintd.c:811-907).
Step 0 is the pre-prompt `fingerprint_success` check under the mutex
(lines 824-832).  Step 1 is the return of `pam_prompt` (line 849).
Step 2 is the failure path (lines 856-871): quit silently if the
fingerprint side already finished, else post `stop_got_pw`.
Step 3 is the post-prompt `fingerprint_success` check under the mutex
(lines 874-885): on success the password is wiped and nothing else
happens.  Step 4 stores the password in `PAM_AUTHTOK` (lines 888-891).
Step 5 posts `stop_got_pw` and signals the main thread
(lines 893-898). -/
def pwStep (p : Params) (s : RState) : RState :=
  if s.pwPc = 0 then
    if s.fpSuccess then { s with obsSuccess := true, pwPc := 6 } else { s with pwPc := 1 }
  else if s.pwPc = 1 then
    if p.promptOk then { s with pwPc := 3 } else { s with pwPc := 2 }
  else if s.pwPc = 2 then
    if s.fpFinished then { s with pwPc := 6 }
    else { s with stopGotPw := true, pwPc := 6 }
  else if s.pwPc = 3 then
    if s.fpSuccess then { s with obsSuccess := true, pwPc := 6 } else { s with pwPc := 4 }
  else if s.pwPc = 4 then
    if p.pwNonEmpty then { s with authtokPw := true, pwPc := 5 } else { s with pwPc := 5 }
  else if s.pwPc = 5 then
    { s with stopGotPw := true, submitted := true, pwPc := 6 }
  else s

/-- The device/bus event: the capture completes and the match result
becomes readable by the verify loop (only when the device would
match). -/
def devStep (p : Params) (s : RState) : RState :=
  if p.fpWouldMatch then { s with matchReceived := true } else s

/-- Scheduler alphabet: which party performs the next atomic step. -/
inductive Choice
  | mainT
  | pwT
  | dev
deriving DecidableEq, Repr

/-- One scheduled step. -/
def step (p : Params) (c : Choice) (s : RState) : RState :=
  match c with
  | .mainT => mainStep p s
  | .pwT => pwStep p s
  | .dev => devStep p s

/-- A whole run under a given schedule. -/
def run (p : Params) (cs : List Choice) : RState :=
  cs.foldl (fun s c => step p c s) init

/-- Inductive invariant of the race.  The conjuncts say, in order:
`fingerprint_success` is only set by the match branch of the verify loop
(I1); once the prompt thread has observed success it has exited without
storing a password or posting a stop (I2); after the reconciliation step
the working result is the fingerprint success whenever no stop was
posted (I3) and so is the final result (I4); a completed password
submission implies a posted stop, a finished prompt thread and a
successful prompt (I5), and forces the final result to
`PAM_AUTHINFO_UNAVAIL` (I6); the main thread passes the join only after
the prompt thread is done (I7); a posted stop means the prompt thread is
done (I8); the password store happens at step 4 at the earliest (I9);
and the success path of the prompt runs only when the prompt succeeded
(I10). -/
def Inv (p : Params) (s : RState) : Prop :=
  (s.fpSuccess = true → s.fpRet = some Pam.PamRet.success ∧ 1 ≤ s.mainPc) ∧
  (s.obsSuccess = true → s.fpSuccess = true ∧ s.pwPc = 6 ∧
    s.authtokPw = false ∧ s.stopGotPw = false) ∧
  (3 ≤ s.mainPc → s.stopGotPw = false → s.fpSuccess = true →
    s.retVar = some Pam.PamRet.success) ∧
  (s.mainPc = 5 → s.stopGotPw = false → s.fpSuccess = true →
    s.finalRet = some Pam.PamRet.success) ∧
  (s.submitted = true → s.stopGotPw = true ∧ s.pwPc = 6 ∧ p.promptOk = true) ∧
  (s.submitted = true → s.mainPc = 5 → s.finalRet = some Pam.PamRet.unavail) ∧
  (4 ≤ s.mainPc → s.pwPc = 6) ∧
  (s.stopGotPw = true → s.pwPc = 6) ∧
  (s.authtokPw = true → 5 ≤ s.pwPc) ∧
  (3 ≤ s.pwPc → s.pwPc ≤ 5 → p.promptOk = true)

end Race

/-! Theorems settling the claims. -/

/-- C1: while a session exists, any Claim call from any caller is
rejected with AlreadyInUse and leaves the state unchanged; on an
unclaimed device the session record is installed by `Claim` itself —
before `dev_open_cb` can run — with the action set to Opening, so a
second concurrent Claim is already rejected with AlreadyInUse. -/
theorem c1_single_claim (st : Device.ClaimState) (sender user s2 u2 : String) :
    (st.session.isSome = true →
      Device.claim st sender user = (st, some .alreadyInUse)) ∧
    (st.session = none →
      (Device.claim st sender user).1.session.isSome = true ∧
      (Device.claim st sender user).1.currentAction = Device.Action.open ∧
      Device.claim (Device.claim st sender user).1 s2 u2 =
        ((Device.claim st sender user).1, some .alreadyInUse)) := by
  obtain ⟨sess, act⟩ := st
  constructor
  · intro h
    cases sess with
    | none => simp at h
    | some s => simp [Device.claim, Device.checkClaimed]
  · intro h
    subst h
    simp [Device.claim, Device.checkClaimed]

/-- Witness for C1 at a concrete unclaimed and a concrete claimed
state. -/
theorem c1_single_claim_witness :
    (Option.isSome (some ({ sender := "a"
                            username := "u"
                            hasInvocation := false
                            verifyStatusReported := false } : Device.SessionData))
          = true ∧
      Device.claim { session := some { sender := "a"
                                       username := "u"
                                       hasInvocation := false
                                       verifyStatusReported := false }
                     currentAction := Device.Action.none } "b" "v" =
        ({ session := some { sender := "a"
                             username := "u"
                             hasInvocation := false
                             verifyStatusReported := false }
           currentAction := Device.Action.none }, some .alreadyInUse)) ∧
    ((none : Option Device.SessionData) = none ∧
      (Device.claim { session := none
                      currentAction := Device.Action.none } "a" "u").1.session.isSome
          = true) := by
  refine ⟨⟨rfl, ?_⟩, rfl, ?_⟩
  · exact (c1_single_claim { session := some { sender := "a"
                                               username := "u"
                                               hasInvocation := false
                                               verifyStatusReported := false }
                             currentAction := Device.Action.none } "b" "v" "c" "w").1 rfl
  · exact ((c1_single_claim { session := none
                              currentAction := Device.Action.none }
      "a" "u" "c" "w").2 rfl).1

/-- C10: deleting a stored template unlinks its path twice; the file is
indeed removed, but the returned status is that of the second unlink,
which fails, so a successful deletion is reported as an error. -/
theorem c10_delete_double_unlink (fs : Storage.Fs)
    (driver deviceId root user : String) (finger : Nat)
    (hnd : fs.Nodup)
    (hmem : Storage.getPathToPrint driver deviceId finger
      (Storage.basestoreForUsername root user) ∈ fs) :
    (Storage.printDataDelete fs driver deviceId finger root user).1 =
      fs.erase (Storage.getPathToPrint driver deviceId finger
        (Storage.basestoreForUsername root user)) ∧
    (Storage.printDataDelete fs driver deviceId finger root user).2 = -1 := by
  unfold Storage.printDataDelete Storage.gUnlink
  have hout : Storage.getPathToPrint driver deviceId finger
      (Storage.basestoreForUsername root user) ∉
      fs.erase (Storage.getPathToPrint driver deviceId finger
        (Storage.basestoreForUsername root user)) :=
    hnd.not_mem_erase
  simp [hmem, hout]

/-- Witness for C10: a single stored template is deleted, yet the
reported status is the error of the second unlink. -/
theorem c10_delete_double_unlink_witness :
    ([Storage.getPathToPrint "d" "0" 1 (Storage.basestoreForUsername "r" "u")] :
        Storage.Fs).Nodup ∧
    Storage.getPathToPrint "d" "0" 1 (Storage.basestoreForUsername "r" "u") ∈
      ([Storage.getPathToPrint "d" "0" 1 (Storage.basestoreForUsername "r" "u")] :
        Storage.Fs) ∧
    (Storage.printDataDelete
        [Storage.getPathToPrint "d" "0" 1 (Storage.basestoreForUsername "r" "u")]
        "d" "0" 1 "r" "u").2 = -1 :=
  ⟨List.nodup_singleton _, List.mem_singleton.2 rfl,
    (c10_delete_double_unlink
      [Storage.getPathToPrint "d" "0" 1 (Storage.basestoreForUsername "r" "u")]
      "d" "0" "r" "u" 1 (List.nodup_singleton _) (List.mem_singleton.2 rfl)).2⟩

/-- Once the terminal status of a cycle has been reported
(`verify_status_reported` is set), no later call of
`report_verify_status` in the same cycle emits a done signal. -/
theorem reportRun_reported (calls : List Device.ReportCall) :
    (Device.reportRun true calls).2 = 0 := by
  induction calls with
  | nil => rfl
  | cons c rest ih =>
    by_cases hd : (c.error.isNone || !Device.errIsRetry c.error) = true
    · simp [Device.reportRun, Device.reportVerifyStatus, hd, ih]
    · simp [Device.reportRun, Device.reportVerifyStatus, hd, ih]

/-- C3: within one verify cycle (the `verify_status_reported` flag
starts clear), the session emits a `VerifyStatus` signal with
`done = true` exactly once — once iff some report is terminal; a
cancellation arriving after the result was reported emits nothing and
logs no warning, while any other duplicate terminal report is suppressed
with a warning. -/
theorem c3_done_reported_once (calls : List Device.ReportCall) (m : Bool)
    (c : Device.ReportCall) (hterm : c.terminal = true)
    (hcanc : c.error ≠ some Device.FpError.cancelled) :
    ((Device.reportRun false calls).2 =
      if calls.any (fun x => x.terminal) then 1 else 0) ∧
    (Device.reportVerifyStatus true m (some .cancelled) =
      { reported := true, emission := none, warned := false }) ∧
    (Device.reportVerifyStatus true c.isMatch c.error =
      { reported := true, emission := none, warned := true }) := by
  refine ⟨?_, ?_, ?_⟩
  · induction calls with
    | nil => rfl
    | cons x rest ih =>
      by_cases hd : (x.error.isNone || !Device.errIsRetry x.error) = true
      · simp [Device.reportRun, Device.reportVerifyStatus, hd,
              Device.ReportCall.terminal, reportRun_reported rest]
      · simp [Device.reportRun, Device.reportVerifyStatus, hd,
              Device.ReportCall.terminal, ih]
  · simp [Device.reportVerifyStatus, Device.errIsRetry, Device.FpError.isRetry]
  · have hd : (c.error.isNone || !Device.errIsRetry c.error) = true := hterm
    simp only [Device.reportVerifyStatus, hd]
    simp [hcanc]

/-- Witness for C3: one retry report followed by two terminal reports
yields exactly one done emission, and a duplicate non-retry report that
is not a cancellation is the suppressed-with-warning case. -/
theorem c3_done_reported_once_witness :
    (({ isMatch := false, error := some Device.FpError.devOther } :
        Device.ReportCall).terminal = true ∧
      ({ isMatch := false, error := some Device.FpError.devOther } :
        Device.ReportCall).error ≠ some Device.FpError.cancelled) ∧
    (Device.reportRun false
        [{ isMatch := false, error := some (Device.FpError.retry .tooShort) },
         { isMatch := true, error := none },
         { isMatch := false, error := some Device.FpError.cancelled }]).2 =
      if ([{ isMatch := false, error := some (Device.FpError.retry .tooShort) },
           { isMatch := true, error := none },
           { isMatch := false, error := some Device.FpError.cancelled }] :
            List Device.ReportCall).any (fun x => x.terminal) then 1 else 0 :=
  ⟨⟨by decide, by decide⟩,
    (c3_done_reported_once
      [{ isMatch := false, error := some (Device.FpError.retry .tooShort) },
       { isMatch := true, error := none },
       { isMatch := false, error := some Device.FpError.cancelled }]
      false { isMatch := false, error := some Device.FpError.devOther }
      (by decide) (by decide)).1⟩

/-- C4: on a retryable capture outcome the session reports
`VerifyStatus(code, done = false)` through `match_cb` and `verify_cb` /
`identify_cb` restart the very same operation — same stored template or
gallery, same cancellation token — while leaving the device state
untouched; a non-retryable outcome never restarts. -/
theorem c4_retry_restart (st : Device.DevState) (e : Device.FpError)
    (e2 : Option Device.FpError)
    (he : e.isRetry = true) (he2 : Device.errIsRetry e2 = false) :
    (Device.matchCb st false (some e)).emission =
      some { result := Device.verifyResultToName false (some e), done := false } ∧
    (Device.verifyCb st (some e)).restart =
      some (Device.DevCall.verify st.verifyData st.currentCancellable) ∧
    (Device.verifyCb st (some e)).state = st ∧
    (Device.identifyCb st (some e)).restart =
      some (Device.DevCall.identify st.identifyData st.currentCancellable) ∧
    (Device.identifyCb st (some e)).state = st ∧
    (Device.verifyCb st e2).restart = none ∧
    (Device.identifyCb st e2).restart = none := by
  have hr : Device.errIsRetry (some e) = true := he
  have hnm : (false && !st.cancelled) = false := by simp
  refine ⟨?_, ?_, ?_, ?_, ?_, ?_, ?_⟩
  · cases e with
    | retry c =>
      simp [Device.matchCb, Device.reportVerifyStatus, Device.errIsRetry,
            Device.FpError.isRetry]
    | proto => simp [Device.FpError.isRetry] at he
    | dataFull => simp [Device.FpError.isRetry] at he
    | devOther => simp [Device.FpError.isRetry] at he
    | cancelled => simp [Device.FpError.isRetry] at he
  · simp [Device.verifyCb, hr]
  · simp [Device.verifyCb, hr]
  · simp [Device.identifyCb, hr]
  · simp [Device.identifyCb, hr]
  · unfold Device.verifyCb
    simp only [he2]
    split_ifs <;> first | rfl | exact absurd rfl (by assumption) | trivial
  · unfold Device.identifyCb
    simp only [he2]
    split_ifs <;> first | rfl | exact absurd rfl (by assumption) | trivial

/-- C6: releasing the device while a verify, identify or enroll is in
flight cancels the action, lets its completion callback run, and only
after the action has settled back to None is the close started; the
Release invocation is answered strictly after the close completed.  The
produced event trace makes the ordering explicit. -/
theorem c6_release_after_settle (st : Device.DevState) (s : Device.SessionData)
    (tok : Nat)
    (hsess : st.session = some s) (hinv : s.hasInvocation = false)
    (htok : st.currentCancellable = some tok)
    (hcinv : st.hasCancelInvocation = false)
    (hact : st.currentAction = Device.Action.verify ∨
            st.currentAction = Device.Action.identify ∨
            st.currentAction = Device.Action.enroll) :
    (Device.release st s.sender true).2.1 =
      [Device.Ev.cancelIssued, Device.Ev.cbRan, Device.Ev.actionSettled,
       Device.Ev.closeStarted, Device.Ev.closeFinished, Device.Ev.releaseAnswered] ∧
    (Device.release st s.sender true).2.2 = none ∧
    (Device.runPendingCb { st with cancelled := true }).1.currentAction =
      Device.Action.none ∧
    (Device.release st s.sender true).1.currentAction = Device.Action.none ∧
    (Device.release st s.sender true).1.session = none ∧
    ((Device.release st s.sender true).2.1.indexOf Device.Ev.actionSettled <
      (Device.release st s.sender true).2.1.indexOf Device.Ev.closeStarted ∧
     (Device.release st s.sender true).2.1.indexOf Device.Ev.closeFinished <
      (Device.release st s.sender true).2.1.indexOf Device.Ev.releaseAnswered) := by
  rcases hact with h | h | h <;>
    (refine ⟨?_, ?_, ?_, ?_, ?_, ?_, ?_⟩ <;>
      simp [Device.release, Device.checkClaimedD, Device.checkClaimed, hsess, hinv,
            htok, h, hcinv, Device.runPendingCb, Device.verifyCb, Device.identifyCb,
            Device.enrollCb, Device.errIsRetry, Device.FpError.isRetry,
            Device.reportVerifyStatus, Device.DevState.setReported, Device.devCloseCb,
            Device.enrollResultToName, Device.tryDeletePrint])

/-- Witness for C6 at a concrete claimed state with a verify in
flight. -/
theorem c6_release_after_settle_witness :
    (({ session := some { sender := "a"
                          username := "u"
                          hasInvocation := false
                          verifyStatusReported := false }
        currentAction := Device.Action.verify
        verifyData := some 7
        identifyData := none
        enrollData := 0
        currentCancellable := some 3
        cancelled := false
        hasCancelInvocation := false } : Device.DevState).session =
      some { sender := "a"
             username := "u"
             hasInvocation := false
             verifyStatusReported := false }) ∧
    (Device.release { session := some { sender := "a"
                                        username := "u"
                                        hasInvocation := false
                                        verifyStatusReported := false }
                      currentAction := Device.Action.verify
                      verifyData := some 7
                      identifyData := none
                      enrollData := 0
                      currentCancellable := some 3
                      cancelled := false
                      hasCancelInvocation := false } "a" true).2.1 =
      [Device.Ev.cancelIssued, Device.Ev.cbRan, Device.Ev.actionSettled,
       Device.Ev.closeStarted, Device.Ev.closeFinished, Device.Ev.releaseAnswered] :=
  ⟨rfl,
    (c6_release_after_settle
      { session := some { sender := "a"
                          username := "u"
                          hasInvocation := false
                          verifyStatusReported := false }
        currentAction := Device.Action.verify
        verifyData := some 7
        identifyData := none
        enrollData := 0
        currentCancellable := some 3
        cancelled := false
        hasCancelInvocation := false }
      { sender := "a"
        username := "u"
        hasInvocation := false
        verifyStatusReported := false }
      3 rfl rfl rfl rfl (Or.inl rfl)).1⟩

/-- Witness for C4 at a concrete device state, a concrete retry error
and a concrete non-retryable error. -/
theorem c4_retry_restart_witness :
    ((Device.FpError.retry .tooShort).isRetry = true ∧
      Device.errIsRetry (some Device.FpError.proto) = false) ∧
    (Device.verifyCb { session := none
                       currentAction := Device.Action.verify
                       verifyData := some 7
                       identifyData := none
                       enrollData := 0
                       currentCancellable := some 3
                       cancelled := false
                       hasCancelInvocation := false }
        (some (Device.FpError.retry .tooShort))).restart =
      some (Device.DevCall.verify (some 7) (some 3)) :=
  ⟨⟨by decide, by decide⟩,
    (c4_retry_restart { session := none
                        currentAction := Device.Action.verify
                        verifyData := some 7
                        identifyData := none
                        enrollData := 0
                        currentCancellable := some 3
                        cancelled := false
                        hasCancelInvocation := false }
      (Device.FpError.retry .tooShort) (some Device.FpError.proto)
      (by decide) (by decide)).2.1⟩

/-- Signals with `done = false` are invisible to the result slot of the
client: the first done signal decides, whatever retry signals precede
it. -/
theorem firstDone_retry_skip (pre sigs : List Pam.VSignal)
    (hpre : ∀ s ∈ pre, s.done = false) :
    Pam.firstDone (pre ++ sigs) = Pam.firstDone sigs := by
  induction pre with
  | nil => rfl
  | cons s rest ih =>
    have hs := hpre s (List.mem_cons_self _ _)
    simp [Pam.firstDone, hs, ih (fun x hx => hpre x (List.mem_cons_of_mem _ hx))]

/-- C5: in the per-attempt verify loop, retryable (non-done) signals
never consume an attempt — they are transparent to the pass — and only
a `verify-no-match` terminal result decrements the attempts counter;
with `max-tries = 3`, three consecutive no-match results terminate the
loop with `PAM_MAXTRIES`, which is distinct from a generic
`PAM_AUTH_ERR`. -/
theorem c5_only_no_match_decrements (pre sigs : List Pam.VSignal) (n : Nat)
    (rest : List Pam.IterInput)
    (hpre : ∀ s ∈ pre, s.done = false)
    (hnm : Pam.firstDone sigs = some "verify-no-match") :
    (Pam.doVerifyLoop (n + 1) (Pam.IterInput.signals (pre ++ sigs) :: rest) =
      Pam.doVerifyLoop (n + 1) (Pam.IterInput.signals sigs :: rest)) ∧
    (Pam.doVerifyLoop (n + 1) (Pam.IterInput.signals sigs :: rest) =
      Pam.doVerifyLoop n rest) ∧
    Pam.doVerifyLoop 3
      [Pam.IterInput.signals [{ result := "verify-no-match", done := true }],
       Pam.IterInput.signals [{ result := "verify-no-match", done := true }],
       Pam.IterInput.signals [{ result := "verify-no-match", done := true }]] =
      some Pam.PamRet.maxtries ∧
    Pam.PamRet.maxtries ≠ Pam.PamRet.authErr := by
  refine ⟨?_, ?_, ?_, by decide⟩
  · simp [Pam.doVerifyLoop, firstDone_retry_skip pre sigs hpre]
  · simp [Pam.doVerifyLoop, hnm]
  · decide

/-- Witness for C5: a retry prefix before the no-match signal, at
concrete inputs. -/
theorem c5_only_no_match_decrements_witness :
    ((∀ s ∈ [({ result := "verify-swipe-too-short", done := false } : Pam.VSignal)],
        s.done = false) ∧
      Pam.firstDone [{ result := "verify-no-match", done := true }] =
        some "verify-no-match") ∧
    Pam.doVerifyLoop 2
      (Pam.IterInput.signals
        ([{ result := "verify-swipe-too-short", done := false }] ++
          [{ result := "verify-no-match", done := true }]) :: []) =
      Pam.doVerifyLoop 2
        (Pam.IterInput.signals [{ result := "verify-no-match", done := true }] :: []) :=
  ⟨⟨by decide, by decide⟩,
    (c5_only_no_match_decrements
      [{ result := "verify-swipe-too-short", done := false }]
      [{ result := "verify-no-match", done := true }] 1 []
      (by decide) (by decide)).1⟩

/-- C7: evaluation of the enrollment garbage collection on a device
whose every stored print is referenced by a known (user, finger)
pairing — user alice enrolled fingers 1 and 2, loading prints 10 and 20,
both present on the device.  Because the inner loop of
`try_delete_print` loads `fingers->data` (the head of the finger list)
instead of the loop variable, print 20 is not recognized as referenced:
the code deletes the referenced print 20 and restarts the enrollment,
while the specified behaviour (no unreferenced template exists) keeps
both prints and reports the original data-full failure. -/
theorem c7_gc_deletes_referenced_print :
    Device.tryDeletePrint [10, 20]
        [{ username := "alice", fingers := [(1, some 10), (2, some 20)] }] =
      (true, [10]) ∧
    (20 : Nat) ∈ Device.referencedPrints
        [{ username := "alice", fingers := [(1, some 10), (2, some 20)] }] ∧
    Device.specTryDeletePrint [10, 20]
        [{ username := "alice", fingers := [(1, some 10), (2, some 20)] }] =
      (false, [10, 20]) ∧
    (Device.enrollCb { session := none
                       currentAction := Device.Action.enroll
                       verifyData := none
                       identifyData := none
                       enrollData := 5
                       currentCancellable := some 3
                       cancelled := false
                       hasCancelInvocation := false }
        none (some Device.FpError.dataFull) true [10, 20]
        [{ username := "alice", fingers := [(1, some 10), (2, some 20)] }]).restart =
      some (Device.DevCall.enroll 5 (some 3)) := by
  refine ⟨by decide, by decide, by decide, ?_⟩
  decide

/-- Loop invariant of the `open_device` selection loop: either no count
beats the running maximum and the loop keeps the incoming candidate, or
the loop returns the earliest index whose count strictly beats the
running maximum and is maximal overall. -/
theorem openDeviceLoop_spec (counts : List Nat) :
    ∀ (m : Nat) (path : Option Nat) (idx : Nat),
    ((∀ c ∈ counts, c ≤ m) ∧ Pam.openDeviceLoop counts m path idx = path) ∨
    (∃ (j : Nat) (w : Nat), counts[j]? = some w ∧ m < w ∧
      Pam.openDeviceLoop counts m path idx = some (idx + j) ∧
      (∀ (k u : Nat), counts[k]? = some u → u ≤ w) ∧
      (∀ (k u : Nat), k < j → counts[k]? = some u → u < w)) := by
  induction counts with
  | nil =>
    intro m path idx
    left
    simp [Pam.openDeviceLoop]
  | cons c rest ih =>
    intro m path idx
    by_cases hc : c > m
    · rcases ih c (some idx) (idx + 1) with ⟨hall, hres⟩ | ⟨j, w, hj, hw, hres, hub, hlt⟩
      · right
        refine ⟨0, c, by simp, hc, ?_, ?_, ?_⟩
        · simp [Pam.openDeviceLoop, hc, hres]
        · intro k u hk
          cases k with
          | zero =>
            simp at hk
            omega
          | succ k2 =>
            simp at hk
            exact hall u (List.getElem?_mem hk)
        · intro k u hk
          omega
      · right
        refine ⟨j + 1, w, by simpa using hj, lt_trans hc hw, ?_, ?_, ?_⟩
        · have : Pam.openDeviceLoop (c :: rest) m path idx =
              Pam.openDeviceLoop rest c (some idx) (idx + 1) := by
            simp [Pam.openDeviceLoop, hc]
          rw [this, hres]
          congr 1
          omega
        · intro k u hk
          cases k with
          | zero =>
            simp at hk
            omega
          | succ k2 =>
            simp at hk
            exact hub k2 u hk
        · intro k u hklt hk
          cases k with
          | zero =>
            simp at hk
            omega
          | succ k2 =>
            simp at hk
            exact hlt k2 u (by omega) hk
    · rcases ih m path (idx + 1) with ⟨hall, hres⟩ | ⟨j, w, hj, hw, hres, hub, hlt⟩
      · left
        refine ⟨?_, ?_⟩
        · intro x hx
          rcases List.mem_cons.1 hx with rfl | hx
          · omega
          · exact hall x hx
        · simp [Pam.openDeviceLoop, hc, hres]
      · right
        refine ⟨j + 1, w, by simpa using hj, hw, ?_, ?_, ?_⟩
        · have : Pam.openDeviceLoop (c :: rest) m path idx =
              Pam.openDeviceLoop rest m path (idx + 1) := by
            simp [Pam.openDeviceLoop, hc]
          rw [this, hres]
          congr 1
          omega
        · intro k u hk
          cases k with
          | zero =>
            simp at hk
            omega
          | succ k2 =>
            simp at hk
            exact hub k2 u hk
        · intro k u hklt hk
          cases k with
          | zero =>
            simp at hk
            omega
          | succ k2 =>
            simp at hk
            exact hlt k2 u (by omega) hk

/-- C8 counterexample: with two devices both reporting zero enrolled
templates, the claimed policy (earliest device among the maxima) would
select device 0, but `open_device` selects no device at all because a
count must strictly exceed the initial maximum of 0. -/
theorem c8_counterexample :
    Pam.specSelect [0, 0] = some 0 ∧ Pam.openDevice [0, 0] = none := by
  decide

/-- C8 amended: provided at least one device has a nonzero enrolled
count, discovery selects the earliest device whose count is maximal; if
every device reports zero, no device is selected.  In particular, with
device A at 0 and device B at 2 prints, device B (index 1) is
selected. -/
theorem c8_amended_best_device (counts : List Nat) (i v : Nat)
    (hi : counts[i]? = some v) (hv : 0 < v) :
    ((∀ c ∈ counts, c = 0) → Pam.openDevice counts = none) ∧
    (∃ (j : Nat) (w : Nat), Pam.openDevice counts = some j ∧ counts[j]? = some w ∧
      (∀ (k u : Nat), counts[k]? = some u → u ≤ w) ∧
      (∀ (k u : Nat), k < j → counts[k]? = some u → u < w)) ∧
    Pam.openDevice [0, 2] = some 1 := by
  refine ⟨?_, ?_, by decide⟩
  · intro hz
    rcases openDeviceLoop_spec counts 0 none 0 with ⟨_, hres⟩ |
        ⟨j, w, hj, hw, _, _, _⟩
    · exact hres
    · have := hz w (List.getElem?_mem hj)
      omega
  · rcases openDeviceLoop_spec counts 0 none 0 with ⟨hall, _⟩ |
        ⟨j, w, hj, hw, hres, hub, hlt⟩
    · have := hall v (List.getElem?_mem hi)
      omega
    · exact ⟨j, w, by simpa using hres, hj, hub, hlt⟩

/-- Witness for C8 amended at a concrete device list. -/
theorem c8_amended_best_device_witness :
    (([0, 2] : List Nat)[1]? = some 2 ∧ (0 : Nat) < 2) ∧
    ∃ (j : Nat) (w : Nat), Pam.openDevice [0, 2] = some j ∧ ([0, 2] : List Nat)[j]? = some w ∧
      (∀ (k u : Nat), ([0, 2] : List Nat)[k]? = some u → u ≤ w) ∧
      (∀ (k u : Nat), k < j → ([0, 2] : List Nat)[k]? = some u → u < w) :=
  ⟨⟨by decide, by decide⟩,
    (c8_amended_best_device [0, 2] 1 2 (by decide) (by decide)).2.1⟩

/-- C9 counterexample: the token `timeout=100` is three characters
longer than the `timeout=` pattern, so the parsing branch rejects it and
the timeout keeps its previous (default) value of 30 seconds — not the
100 seconds the claim predicts for every integer N. -/
theorem c9_counterexample :
    Pam.applyTimeoutArg
        ['t', 'i', 'm', 'e', 'o', 'u', 't', '=', '1', '0', '0']
        Pam.defaultTimeout = Pam.defaultTimeout ∧
    Pam.specTimeout 100 = 100 ∧
    Pam.defaultTimeout ≠ 100 := by
  decide

/-- C9 amended: only `timeout=N` tokens whose value part has at most two
characters are parsed (integers from -9 to 99): negative values give the
unlimited sentinel `UINT_MAX`, values below 10 are floored to 10, and
the rest set N seconds; any longer token fails the length guard and
leaves the timeout unchanged. -/
theorem c9_timeout_parse (arg : List Char) (cur : Nat)
    (hlong : ¬(Pam.listIsPre Pam.timeoutPat arg = true ∧
               arg.length ≤ Pam.timeoutPat.length + 2)) :
    (∀ k : Fin 109,
      Pam.applyTimeoutArg (Pam.timeoutPat ++ Pam.intToChars ((k : Int) - 9))
          Pam.defaultTimeout =
        Pam.specTimeout ((k : Int) - 9)) ∧
    Pam.applyTimeoutArg arg cur = cur := by
  constructor
  · decide
  · simp only [Pam.applyTimeoutArg]
    rw [if_neg hlong]

/-- Witness for C9 amended: the rejected token `timeout=100` at the
default timeout. -/
theorem c9_timeout_parse_witness :
    ¬(Pam.listIsPre Pam.timeoutPat
        ['t', 'i', 'm', 'e', 'o', 'u', 't', '=', '1', '0', '0'] = true ∧
      (['t', 'i', 'm', 'e', 'o', 'u', 't', '=', '1', '0', '0'] : List Char).length ≤
        Pam.timeoutPat.length + 2) ∧
    Pam.applyTimeoutArg ['t', 'i', 'm', 'e', 'o', 'u', 't', '=', '1', '0', '0'] 30 = 30 :=
  ⟨by decide,
    (c9_timeout_parse ['t', 'i', 'm', 'e', 'o', 'u', 't', '=', '1', '0', '0'] 30
      (by decide)).2⟩

/-- The race invariant holds initially. -/
theorem race_inv_init (p : Race.Params) : Race.Inv p Race.init := by
  simp [Race.Inv, Race.init]

set_option maxHeartbeats 2000000 in
/-- The race invariant is preserved by every scheduled atomic step. -/
theorem race_inv_step (p : Race.Params) (c : Race.Choice) (s : Race.RState)
    (h : Race.Inv p s) : Race.Inv p (Race.step p c s) := by
  obtain ⟨h1, h2, h3, h4, h5, h6, h7, h8, h9, h10⟩ := h
  obtain ⟨mainPc, pwPc, matchReceived, fpSuccess, fpFinished, stopGotPw, authtokPw,
    authtokDummy, obsSuccess, submitted, fpRet, retVar, finalRet⟩ := s
  cases c
  case dev =>
    simp only [Race.step, Race.devStep]
    split_ifs with hm
    · exact ⟨h1, h2, h3, h4, h5, h6, h7, h8, h9, h10⟩
    · exact ⟨h1, h2, h3, h4, h5, h6, h7, h8, h9, h10⟩
  case mainT =>
    simp only [Race.step, Race.mainStep, Race.Inv] at *
    split_ifs <;>
      (refine ⟨?_, ?_, ?_, ?_, ?_, ?_, ?_, ?_, ?_, ?_⟩ <;> intros <;> simp_all)
  case pwT =>
    simp only [Race.step, Race.pwStep, Race.Inv] at *
    split_ifs <;>
      (refine ⟨?_, ?_, ?_, ?_, ?_, ?_, ?_, ?_, ?_, ?_⟩ <;> intros <;> simp_all)

/-- The race invariant holds after any run. -/
theorem race_inv_run (p : Race.Params) (cs : List Race.Choice) :
    Race.Inv p (Race.run p cs) := by
  suffices h : ∀ s, Race.Inv p s → Race.Inv p (cs.foldl (fun t c => Race.step p c t) s) by
    exact h Race.init (race_inv_init p)
  induction cs with
  | nil => exact fun s hs => hs
  | cons c rest ih => exact fun s hs => ih (Race.step p c s) (race_inv_step p c s hs)

/-- C2: under every interleaving of the threaded client, whichever side
concludes first wins and the loser leaves no side effect.  If the prompt
thread observed `fingerprint_success` at one of its mutex-guarded checks
(the fingerprint concluded first), it never stores the typed password in
`PAM_AUTHTOK`, and the attempt finishes with `PAM_SUCCESS`.  If the
prompt thread completed a password submission (the password concluded
first), the attempt finishes with `PAM_AUTHINFO_UNAVAIL` — handing the
stored password to the rest of the PAM stack — regardless of any
fingerprint result. -/
theorem c2_first_conclusion_wins (p : Race.Params) (cs : List Race.Choice) :
    ((Race.run p cs).obsSuccess = true →
      (Race.run p cs).authtokPw = false ∧
      ((Race.run p cs).mainPc = 5 →
        (Race.run p cs).finalRet = some Pam.PamRet.success)) ∧
    ((Race.run p cs).submitted = true →
      (Race.run p cs).mainPc = 5 →
      (Race.run p cs).finalRet = some Pam.PamRet.unavail) := by
  obtain ⟨h1, h2, h3, h4, h5, h6, h7, h8, h9, h10⟩ := race_inv_run p cs
  constructor
  · intro hobs
    obtain ⟨hfp, hpw, htok, hstop⟩ := h2 hobs
    exact ⟨htok, fun hm => h4 hm hstop hfp⟩
  · intro hsub hm
    exact h6 hsub hm

/-- Witness for C2: a schedule where the fingerprint concludes first
(applying the first half) and one where the password concludes first
(applying the second half). -/
theorem c2_first_conclusion_wins_witness :
    ((Race.run { fpWouldMatch := true, promptOk := true, pwNonEmpty := true }
        [Race.Choice.dev, Race.Choice.mainT, Race.Choice.pwT, Race.Choice.mainT,
         Race.Choice.mainT, Race.Choice.mainT, Race.Choice.mainT]).obsSuccess = true ∧
      (Race.run { fpWouldMatch := true, promptOk := true, pwNonEmpty := true }
        [Race.Choice.dev, Race.Choice.mainT, Race.Choice.pwT, Race.Choice.mainT,
         Race.Choice.mainT, Race.Choice.mainT, Race.Choice.mainT]).authtokPw = false) ∧
    ((Race.run { fpWouldMatch := false, promptOk := true, pwNonEmpty := true }
        [Race.Choice.pwT, Race.Choice.pwT, Race.Choice.pwT, Race.Choice.pwT,
         Race.Choice.pwT, Race.Choice.mainT, Race.Choice.mainT, Race.Choice.mainT,
         Race.Choice.mainT, Race.Choice.mainT]).submitted = true ∧
      (Race.run { fpWouldMatch := false, promptOk := true, pwNonEmpty := true }
        [Race.Choice.pwT, Race.Choice.pwT, Race.Choice.pwT, Race.Choice.pwT,
         Race.Choice.pwT, Race.Choice.mainT, Race.Choice.mainT, Race.Choice.mainT,
         Race.Choice.mainT, Race.Choice.mainT]).finalRet = some Pam.PamRet.unavail) := by
  refine ⟨⟨by decide, ?_⟩, ⟨by decide, ?_⟩⟩
  · exact ((c2_first_conclusion_wins
      { fpWouldMatch := true, promptOk := true, pwNonEmpty := true }
      [Race.Choice.dev, Race.Choice.mainT, Race.Choice.pwT, Race.Choice.mainT,
       Race.Choice.mainT, Race.Choice.mainT, Race.Choice.mainT]).1 (by decide)).1
  · exact (c2_first_conclusion_wins
      { fpWouldMatch := false, promptOk := true, pwNonEmpty := true }
      [Race.Choice.pwT, Race.Choice.pwT, Race.Choice.pwT, Race.Choice.pwT,
       Race.Choice.pwT, Race.Choice.mainT, Race.Choice.mainT, Race.Choice.mainT,
       Race.Choice.mainT, Race.Choice.mainT]).2 (by decide) (by decide)

end Fprintd
